import Mathlib

/-!
# Verification of the `pro-estop` HAL component (`src/pro-estop.c`)

This file gives a shallow embedding of the `update` function of the
`pro-estop` component and proves properties of it.  The component reads raw
fault signals (per-axis drive faults, per-axis following errors, a spindle
error code, a spindle modbus-health bit, a physical E-Stop button), latches
them, runs four saturating timers, executes a timed reset sequence when the
user requests recovery, and derives the `estop` / `emc-enable` /
`machine-on` / per-axis `motor-enable` / `unhome` outputs.

The embedding follows the C source statement by statement: each HAL pin or
state field of `data_t` becomes a field of `Inputs` (input pins) or `Data`
(state variables and output pins), and `update` performs the assignments of
the C `update` function in source order, threading intermediate values the
way the C code mutates `data->...` fields mid-call.
-/

set_option maxRecDepth 100000

/-- MAX_TIME from the source (line 162): timers stop incrementing once they
pass this value; since the increment is guarded by `<=`, the resting value
of a saturated timer is `MAX_TIME + 1 = 6001`. -/
def MAX_TIME : Nat := 6000

/-- UNHOME_TIME from the source (line 164). -/
def UNHOME_TIME : Nat := 100

/-- MACHINE_ON_TIME from the source (line 167). -/
def MACHINE_ON_TIME : Nat := 1100

/-- STARTUP_TIME from the source (line 174). -/
def STARTUP_TIME : Nat := 3000

/-- DISABLE_MOTOR_TIME from the source (line 178). -/
def DISABLE_MOTOR_TIME : Nat := 100

/-- RESET_TIME from the source (line 183). -/
def RESET_TIME : Nat := 1000

/-- The input pins of the component (the `HAL_IN` pins of `data_t`),
sampled once per tick at the top of `update`.  `spindleErrorCode` is a
`hal_s32_t` (int32); every comparison made on it is against 0 and no
arithmetic is performed, so it is modelled as `Int`. -/
structure Inputs where
  xFault : Bool
  yFault : Bool
  zFault : Bool
  bFault : Bool
  cFault : Bool
  xFError : Bool
  yFError : Bool
  zFError : Bool
  bFError : Bool
  cFError : Bool
  button : Bool
  spindleErrorCode : Int
  spindleModbusOk : Bool
  ignoreComErrors : Bool
  userRequestEnable : Bool
  userEnable : Bool
  deriving DecidableEq

/-- The state of the component: the latched state variables of `data_t`
together with the output pins (which persist between calls).  The four
timers are `hal_u32_t`; they are modelled as `Nat`, which agrees with the
C semantics for every `u32` value because each increment is guarded by
`t <= MAX_TIME` and therefore never overflows 32 bits. -/
structure Data where
  buttonPushed : Bool
  buttonReleased : Bool
  xFaulted : Bool
  yFaulted : Bool
  zFaulted : Bool
  bFaulted : Bool
  cFaulted : Bool
  xFErrored : Bool
  yFErrored : Bool
  zFErrored : Bool
  bFErrored : Bool
  cFErrored : Bool
  estop : Bool
  estopped : Bool
  spindleErroredWithCode : Int
  spindleModbusNotOk : Bool
  timeSinceEnable : Nat
  timeSinceEStop : Nat
  timeSinceStartUp : Nat
  timeSinceButtonRelease : Nat
  userRequestedEnable : Bool
  emcEnable : Bool
  machineOn : Bool
  power : Bool
  xMotorEnable : Bool
  yMotorEnable : Bool
  zMotorEnable : Bool
  bMotorEnable : Bool
  cMotorEnable : Bool
  unhome : Bool
  deriving DecidableEq

/-- Value of `data->timeSinceButtonRelease` after the button-release edge
handling (source lines 335-340): on the first tick on which the button is
observed released after having been pushed (`buttonPushed && !button` with
`buttonReleased` still false) the timer is zeroed; otherwise it is
unchanged. -/
def tsbrAfterRelease (i : Inputs) (s : Data) : Nat :=
  if s.buttonPushed && !i.button && !s.buttonReleased then 0
  else s.timeSinceButtonRelease

/-- The recovery-request acceptance condition (source line 375): the
`userRequestedEnable` latch is clear and either the user asks to recover or
the button has been latch-released for more than `STARTUP_TIME`.  The
`buttonReleased` read is the snapshot taken at the top of `update` (old
value); the `timeSinceButtonRelease` read is the current field, i.e. after
the possible zeroing on this very tick. -/
def acceptRequest (i : Inputs) (s : Data) : Bool :=
  !s.userRequestedEnable &&
    (i.userRequestEnable ||
      (s.buttonReleased && decide (tsbrAfterRelease i s > STARTUP_TIME)))

/-- The value of `*(data->userRequestedEnable)` at the sequencer check
(source line 382), i.e. after a possible acceptance on this tick. -/
def sequencerActive (i : Inputs) (s : Data) : Bool :=
  s.userRequestedEnable || acceptRequest i s

/-- The value of `data->timeSinceEnable` at the sequencer checks (source
lines 385 and 400), i.e. zeroed if a request was accepted on this tick. -/
def tseAtCheck (i : Inputs) (s : Data) : Nat :=
  if acceptRequest i s then 0 else s.timeSinceEnable

/-- Whether the reset sequence completes on this tick (source line 400):
the sequencer is active and `timeSinceEnable` exceeds `RESET_TIME`.  This
is the condition under which all latches are cleared and the local `reset`
flag of the C code is set. -/
def resetCompleted (i : Inputs) (s : Data) : Bool :=
  sequencerActive i s && decide (tseAtCheck i s > RESET_TIME)

/-- The int value of the C local `spindleErrorCode` (source line 207):
`*(data->spindleErrorCode) && notIgnoreComErrors` evaluated on a
`hal_s32_t`.  The C `&&` operator yields the int 0 or 1, so this local is
the truth value of the condition, not the raw error code. -/
def spindleErrorCodeVal (i : Inputs) : Int :=
  if (i.spindleErrorCode != 0) && !i.ignoreComErrors then 1 else 0

/-- The guard of source lines 236-240 (C local
`preventFaultsFromButtonPushAndStartup`): suppresses latching of motor and
spindle faults while the button is pushed or latched, during the startup
window, and right after a reset. -/
def preventFaults (i : Inputs) (s : Data) : Bool :=
  !i.button && !s.buttonPushed &&
    decide (s.timeSinceStartUp > STARTUP_TIME) &&
    decide (s.timeSinceEnable > RESET_TIME) &&
    decide (s.timeSinceButtonRelease > STARTUP_TIME)

/-- The C local `fault` (source lines 345-357): the instantaneous fault
state computed from this tick's raw inputs alone. -/
def fault (i : Inputs) : Bool :=
  (i.xFault && !i.ignoreComErrors) || (i.yFault && !i.ignoreComErrors) ||
    (i.zFault && !i.ignoreComErrors) || (i.bFault && !i.ignoreComErrors) ||
    (i.cFault && !i.ignoreComErrors) ||
    i.xFError || i.yFError || i.zFError || i.bFError || i.cFError ||
    !(i.spindleModbusOk || i.ignoreComErrors) ||
    (spindleErrorCodeVal i != 0) || i.button

/-- The C local `faulted` (source lines 360-372): the latched fault value,
computed from the snapshots of the latch variables taken at the top of
`update` (i.e. from the previous state). -/
def faulted (s : Data) : Bool :=
  s.xFaulted || s.yFaulted || s.zFaulted || s.bFaulted || s.cFaulted ||
    s.xFErrored || s.yFErrored || s.zFErrored || s.bFErrored || s.cFErrored ||
    s.spindleModbusNotOk || (s.spindleErroredWithCode != 0) || s.buttonPushed

/-- One invocation of the exported `update` function (source lines 190-462),
mapping the input-pin values of this tick and the previous state to the new
state.  Intermediate `let`s mirror the C locals and the successive
mutations of `data->...` fields, in source order. -/
def update (i : Inputs) (s : Data) : Data :=
  let spindleErrorCode : Int := spindleErrorCodeVal i
  let spindleModbusOk := i.spindleModbusOk || i.ignoreComErrors
  let guard := preventFaults i s
  -- lines 242-277: axis fault latches (guarded)
  let xFaulted1 := if (i.xFault && !i.ignoreComErrors) && guard then true else s.xFaulted
  let yFaulted1 := if (i.yFault && !i.ignoreComErrors) && guard then true else s.yFaulted
  let zFaulted1 := if (i.zFault && !i.ignoreComErrors) && guard then true else s.zFaulted
  let bFaulted1 := if (i.bFault && !i.ignoreComErrors) && guard then true else s.bFaulted
  let cFaulted1 := if (i.cFault && !i.ignoreComErrors) && guard then true else s.cFaulted
  -- lines 279-312: following-error latches (unguarded)
  let xFErrored1 := if i.xFError then true else s.xFErrored
  let yFErrored1 := if i.yFError then true else s.yFErrored
  let zFErrored1 := if i.zFError then true else s.zFErrored
  let bFErrored1 := if i.bFError then true else s.bFErrored
  let cFErrored1 := if i.cFError then true else s.cFErrored
  -- lines 314-319: spindle error code latch (guarded)
  let spindleErroredWithCode1 :=
    if (spindleErrorCode != 0) && guard then spindleErrorCode
    else s.spindleErroredWithCode
  -- lines 321-326: modbus latch (guarded)
  let spindleModbusNotOk1 :=
    if !spindleModbusOk && guard then true else s.spindleModbusNotOk
  -- lines 328-333: button push latch (unguarded)
  let buttonPushed1 := if i.button then true else s.buttonPushed
  -- lines 335-340: one-shot button release edge (uses the old snapshots)
  let timeSinceButtonRelease1 := tsbrAfterRelease i s
  let buttonReleased1 :=
    if s.buttonPushed && !i.button then true else s.buttonReleased
  -- line 342: unhome output, computed from the old estopped / timer
  let unhome1 := s.estopped && decide (s.timeSinceEStop > UNHOME_TIME)
  -- lines 375-379: latch the recovery request and restart its timer
  let userRequestedEnable1 := sequencerActive i s
  let timeSinceEnable1 := tseAtCheck i s
  -- lines 381-397: motor disable / re-enable phases
  let xMotorEnable1 :=
    if userRequestedEnable1 then decide (timeSinceEnable1 ≥ DISABLE_MOTOR_TIME)
    else s.xMotorEnable
  let yMotorEnable1 :=
    if userRequestedEnable1 then decide (timeSinceEnable1 ≥ DISABLE_MOTOR_TIME)
    else s.yMotorEnable
  let zMotorEnable1 :=
    if userRequestedEnable1 then decide (timeSinceEnable1 ≥ DISABLE_MOTOR_TIME)
    else s.zMotorEnable
  let bMotorEnable1 :=
    if userRequestedEnable1 then decide (timeSinceEnable1 ≥ DISABLE_MOTOR_TIME)
    else s.bMotorEnable
  let cMotorEnable1 :=
    if userRequestedEnable1 then decide (timeSinceEnable1 ≥ DISABLE_MOTOR_TIME)
    else s.cMotorEnable
  -- lines 400-425: reset completion clears every latch
  let reset := resetCompleted i s
  let xFaulted2 := if reset then false else xFaulted1
  let yFaulted2 := if reset then false else yFaulted1
  let zFaulted2 := if reset then false else zFaulted1
  let bFaulted2 := if reset then false else bFaulted1
  let cFaulted2 := if reset then false else cFaulted1
  let xFErrored2 := if reset then false else xFErrored1
  let yFErrored2 := if reset then false else yFErrored1
  let zFErrored2 := if reset then false else zFErrored1
  let bFErrored2 := if reset then false else bFErrored1
  let cFErrored2 := if reset then false else cFErrored1
  let spindleErroredWithCode2 := if reset then 0 else spindleErroredWithCode1
  let spindleModbusNotOk2 := if reset then false else spindleModbusNotOk1
  let buttonPushed2 := if reset then false else buttonPushed1
  let buttonReleased2 := if reset then false else buttonReleased1
  let estopped1 := if reset then false else s.estopped
  let userRequestedEnable2 := if reset then false else userRequestedEnable1
  -- lines 428-445: saturating timer increments
  let timeSinceButtonRelease2 :=
    if timeSinceButtonRelease1 ≤ MAX_TIME then timeSinceButtonRelease1 + 1
    else timeSinceButtonRelease1
  let timeSinceEnable2 :=
    if timeSinceEnable1 ≤ MAX_TIME then timeSinceEnable1 + 1
    else timeSinceEnable1
  let timeSinceStartUp2 :=
    if s.timeSinceStartUp ≤ MAX_TIME then s.timeSinceStartUp + 1
    else s.timeSinceStartUp
  let timeSinceEStop1 :=
    if s.timeSinceEStop ≤ MAX_TIME then s.timeSinceEStop + 1
    else s.timeSinceEStop
  -- line 447: the stop decision
  let estop1 :=
    !(!fault i && i.userEnable && (!faulted s || (faulted s && reset)))
  -- lines 449-452: rising edge of estop enters the sticky stopped state
  let timeSinceEStop2 := if estop1 && !estopped1 then 0 else timeSinceEStop1
  let estopped2 := if estop1 && !estopped1 then true else estopped1
  -- line 454
  let emcEnable1 := !estop1
  -- line 461: machine-on, using the already incremented timer
  let machineOn1 := emcEnable1 && decide (timeSinceEnable2 > MACHINE_ON_TIME)
  { buttonPushed := buttonPushed2
    buttonReleased := buttonReleased2
    xFaulted := xFaulted2
    yFaulted := yFaulted2
    zFaulted := zFaulted2
    bFaulted := bFaulted2
    cFaulted := cFaulted2
    xFErrored := xFErrored2
    yFErrored := yFErrored2
    zFErrored := zFErrored2
    bFErrored := bFErrored2
    cFErrored := cFErrored2
    estop := estop1
    estopped := estopped2
    spindleErroredWithCode := spindleErroredWithCode2
    spindleModbusNotOk := spindleModbusNotOk2
    timeSinceEnable := timeSinceEnable2
    timeSinceEStop := timeSinceEStop2
    timeSinceStartUp := timeSinceStartUp2
    timeSinceButtonRelease := timeSinceButtonRelease2
    userRequestedEnable := userRequestedEnable2
    emcEnable := emcEnable1
    machineOn := machineOn1
    power := s.power
    xMotorEnable := xMotorEnable1
    yMotorEnable := yMotorEnable1
    zMotorEnable := zMotorEnable1
    bMotorEnable := bMotorEnable1
    cMotorEnable := cMotorEnable1
    unhome := unhome1 }

/-- The state after `rtapi_app_main` (source lines 464-566): `hal_malloc`
returns zeroed memory and every explicitly initialized state field is
0/false, except `power` and the five motor-enable outputs which are set to
1 (lines 525-530). -/
def initState : Data :=
  { buttonPushed := false
    buttonReleased := false
    xFaulted := false
    yFaulted := false
    zFaulted := false
    bFaulted := false
    cFaulted := false
    xFErrored := false
    yFErrored := false
    zFErrored := false
    bFErrored := false
    cFErrored := false
    estop := false
    estopped := false
    spindleErroredWithCode := 0
    spindleModbusNotOk := false
    timeSinceEnable := 0
    timeSinceEStop := 0
    timeSinceStartUp := 0
    timeSinceButtonRelease := 0
    userRequestedEnable := false
    emcEnable := false
    machineOn := false
    power := true
    xMotorEnable := true
    yMotorEnable := true
    zMotorEnable := true
    bMotorEnable := true
    cMotorEnable := true
    unhome := false }

/-- The execution trace: `trace inp s0 n` is the state after `n` calls of
`update`, where call `k` (the transition from `trace inp s0 k` to
`trace inp s0 (k+1)`) reads the input pins `inp k`.  We say an output is
produced "on tick `k`" when it is written during call `k`, i.e. when it is
a field of `trace inp s0 (k+1)`. -/
def trace (inp : Nat → Inputs) (s0 : Data) : Nat → Data
  | 0 => s0
  | n + 1 => update (inp n) (trace inp s0 n)

/-- The all-quiet input: no faults, modbus healthy, no button, no recovery
request, external run permission granted. -/
def quietIn : Inputs :=
  { xFault := false
    yFault := false
    zFault := false
    bFault := false
    cFault := false
    xFError := false
    yFError := false
    zFError := false
    bFError := false
    cFError := false
    button := false
    spindleErrorCode := 0
    spindleModbusOk := true
    ignoreComErrors := false
    userRequestEnable := false
    userEnable := true }

/-- The all-quiet input stream. -/
def quietInp : Nat → Inputs := fun _ => quietIn

/-- Closed form of the run driven by `quietInp` from `initState`: nothing
ever faults, all four timers count up and saturate at `MAX_TIME + 1`, and
`machineOn` rises once `timeSinceEnable` passes `MACHINE_ON_TIME`. -/
def quietState (n : Nat) : Data :=
  { buttonPushed := false
    buttonReleased := false
    xFaulted := false
    yFaulted := false
    zFaulted := false
    bFaulted := false
    cFaulted := false
    xFErrored := false
    yFErrored := false
    zFErrored := false
    bFErrored := false
    cFErrored := false
    estop := false
    estopped := false
    spindleErroredWithCode := 0
    spindleModbusNotOk := false
    timeSinceEnable := min n 6001
    timeSinceEStop := min n 6001
    timeSinceStartUp := min n 6001
    timeSinceButtonRelease := min n 6001
    userRequestedEnable := false
    emcEnable := true
    machineOn := decide (1100 < n)
    power := true
    xMotorEnable := true
    yMotorEnable := true
    zMotorEnable := true
    bMotorEnable := true
    cMotorEnable := true
    unhome := false }

/-- Pre-state for the recovery scenario of claim C2: a latched X-axis
fault, machine stopped, all timers saturated, no recovery in progress. -/
def preS : Data :=
  { buttonPushed := false
    buttonReleased := false
    xFaulted := true
    yFaulted := false
    zFaulted := false
    bFaulted := false
    cFaulted := false
    xFErrored := false
    yFErrored := false
    zFErrored := false
    bFErrored := false
    cFErrored := false
    estop := true
    estopped := true
    spindleErroredWithCode := 0
    spindleModbusNotOk := false
    timeSinceEnable := 6001
    timeSinceEStop := 6001
    timeSinceStartUp := 6001
    timeSinceButtonRelease := 6001
    userRequestedEnable := false
    emcEnable := false
    machineOn := false
    power := true
    xMotorEnable := true
    yMotorEnable := true
    zMotorEnable := true
    bMotorEnable := true
    cMotorEnable := true
    unhome := false }

/-- The tick-0 input of the recovery scenario: the user asks to recover. -/
def recIn0 : Inputs := { quietIn with userRequestEnable := true }

/-- Input stream of the recovery scenario: the recovery request is
asserted on tick 0 only; afterwards everything is quiet (no new raw fault,
external run permission granted throughout). -/
def recInp : Nat → Inputs := fun n => if n = 0 then recIn0 else quietIn

/-- Closed form of the recovery run `trace recInp preS n` for `n ≥ 1`:
the request is accepted on tick 0 (`timeSinceEnable` restarts and counts
`n`), motors are disabled for `timeSinceEnable < DISABLE_MOTOR_TIME` and
re-enabled afterwards, the reset completes on tick 1001 clearing the latch
and the stop, and `machineOn` first rises on tick 1100. -/
def recState (n : Nat) : Data :=
  { buttonPushed := false
    buttonReleased := false
    xFaulted := decide (n ≤ 1001)
    yFaulted := false
    zFaulted := false
    bFaulted := false
    cFaulted := false
    xFErrored := false
    yFErrored := false
    zFErrored := false
    bFErrored := false
    cFErrored := false
    estop := decide (n ≤ 1001)
    estopped := decide (n ≤ 1001)
    spindleErroredWithCode := 0
    spindleModbusNotOk := false
    timeSinceEnable := min n 6001
    timeSinceEStop := 6001
    timeSinceStartUp := 6001
    timeSinceButtonRelease := 6001
    userRequestedEnable := decide (n ≤ 1001)
    emcEnable := decide (1002 ≤ n)
    machineOn := decide (1101 ≤ n)
    power := true
    xMotorEnable := decide (101 ≤ n)
    yMotorEnable := decide (101 ≤ n)
    zMotorEnable := decide (101 ≤ n)
    bMotorEnable := decide (101 ≤ n)
    cMotorEnable := decide (101 ≤ n)
    unhome := decide (n ≤ 1002) }

/-- Start state for the claim C9 counterexample run: the machine has just
entered the stopped state (`estopped` with `timeSinceEStop = 0`) while a
recovery sequence is already in progress with `timeSinceEnable = 901`, so
the reset completes 100 ticks later and `estopped` holds for exactly 101
states.  This is the state reached when a transient raw fault stops the
machine mid-recovery: the fault is not latched (the latching guard is off
during recovery), so `estop` itself is already clear again. -/
def c9s0 : Data :=
  { buttonPushed := false
    buttonReleased := false
    xFaulted := false
    yFaulted := false
    zFaulted := false
    bFaulted := false
    cFaulted := false
    xFErrored := false
    yFErrored := false
    zFErrored := false
    bFErrored := false
    cFErrored := false
    estop := false
    estopped := true
    spindleErroredWithCode := 0
    spindleModbusNotOk := false
    timeSinceEnable := 901
    timeSinceEStop := 0
    timeSinceStartUp := 6001
    timeSinceButtonRelease := 6001
    userRequestedEnable := true
    emcEnable := true
    machineOn := false
    power := true
    xMotorEnable := true
    yMotorEnable := true
    zMotorEnable := true
    bMotorEnable := true
    cMotorEnable := true
    unhome := false }

/-- Closed form of the claim C9 counterexample run `trace quietInp c9s0`:
`estopped` holds on states 0..100 (101 consecutive states), the reset
completes on tick 100 clearing it, and `unhome` is never written true
because `timeSinceEStop` only reaches 100 while `estopped` still holds. -/
def c9State (n : Nat) : Data :=
  { buttonPushed := false
    buttonReleased := false
    xFaulted := false
    yFaulted := false
    zFaulted := false
    bFaulted := false
    cFaulted := false
    xFErrored := false
    yFErrored := false
    zFErrored := false
    bFErrored := false
    cFErrored := false
    estop := false
    estopped := decide (n ≤ 100)
    spindleErroredWithCode := 0
    spindleModbusNotOk := false
    timeSinceEnable := min (901 + n) 6001
    timeSinceEStop := min n 6001
    timeSinceStartUp := 6001
    timeSinceButtonRelease := 6001
    userRequestedEnable := decide (n ≤ 100)
    emcEnable := true
    machineOn := decide (1100 < min (901 + n) 6001)
    power := true
    xMotorEnable := true
    yMotorEnable := true
    zMotorEnable := true
    bMotorEnable := true
    cMotorEnable := true
    unhome := false }

/-- All five per-axis motor-enable outputs are driven low. -/
def motorsOff (s : Data) : Prop :=
  s.xMotorEnable = false ∧ s.yMotorEnable = false ∧ s.zMotorEnable = false ∧
    s.bMotorEnable = false ∧ s.cMotorEnable = false

/-- All five per-axis motor-enable outputs are driven high. -/
def motorsOn (s : Data) : Prop :=
  s.xMotorEnable = true ∧ s.yMotorEnable = true ∧ s.zMotorEnable = true ∧
    s.bMotorEnable = true ∧ s.cMotorEnable = true

/-- Every fault-source latch of the component is clear: the five axis
fault latches, the five following-error latches, the latched spindle error
code (0 = none), the latched modbus failure, and the button latch. -/
def latchesClear (s : Data) : Prop :=
  s.xFaulted = false ∧ s.yFaulted = false ∧ s.zFaulted = false ∧
    s.bFaulted = false ∧ s.cFaulted = false ∧
    s.xFErrored = false ∧ s.yFErrored = false ∧ s.zFErrored = false ∧
    s.bFErrored = false ∧ s.cFErrored = false ∧
    s.spindleErroredWithCode = 0 ∧ s.spindleModbusNotOk = false ∧
    s.buttonPushed = false

/-- Each fault-source latch that is set in `s` is still set in `t`. -/
def latchesMono (s t : Data) : Prop :=
  (s.xFaulted = true → t.xFaulted = true) ∧
    (s.yFaulted = true → t.yFaulted = true) ∧
    (s.zFaulted = true → t.zFaulted = true) ∧
    (s.bFaulted = true → t.bFaulted = true) ∧
    (s.cFaulted = true → t.cFaulted = true) ∧
    (s.xFErrored = true → t.xFErrored = true) ∧
    (s.yFErrored = true → t.yFErrored = true) ∧
    (s.zFErrored = true → t.zFErrored = true) ∧
    (s.bFErrored = true → t.bFErrored = true) ∧
    (s.cFErrored = true → t.cFErrored = true) ∧
    (s.spindleErroredWithCode ≠ 0 → t.spindleErroredWithCode ≠ 0) ∧
    (s.spindleModbusNotOk = true → t.spindleModbusNotOk = true) ∧
    (s.buttonPushed = true → t.buttonPushed = true)

/-- Input stream for the claim C1 counterexample: all quiet except for a
one-tick transient X-axis drive fault on tick 5, well inside the startup
grace window so that nothing is latched. -/
def c1inp : Nat → Inputs := fun n =>
  if n = 5 then { quietIn with xFault := true } else quietIn

/-- A state in which the reset sequence completes on the next call: the
recovery has been in progress for `RESET_TIME + 1` ticks.  All its timers
equal 1001, which is exactly the state reached from `initState` when a
recovery request is accepted on tick 0 and tick 1001 is about to run, so
it is still inside the startup grace window (`timeSinceStartUp ≤
STARTUP_TIME`). -/
def resetS : Data :=
  { buttonPushed := false
    buttonReleased := false
    xFaulted := false
    yFaulted := false
    zFaulted := false
    bFaulted := false
    cFaulted := false
    xFErrored := false
    yFErrored := false
    zFErrored := false
    bFErrored := false
    cFErrored := false
    estop := false
    estopped := false
    spindleErroredWithCode := 0
    spindleModbusNotOk := false
    timeSinceEnable := 1001
    timeSinceEStop := 1001
    timeSinceStartUp := 1001
    timeSinceButtonRelease := 1001
    userRequestedEnable := true
    emcEnable := true
    machineOn := false
    power := true
    xMotorEnable := true
    yMotorEnable := true
    zMotorEnable := true
    bMotorEnable := true
    cMotorEnable := true
    unhome := false }

/-- A state in which the latching guard `preventFaults` holds: no button
activity, all timers saturated, nothing latched. -/
def c5s : Data :=
  { buttonPushed := false
    buttonReleased := false
    xFaulted := false
    yFaulted := false
    zFaulted := false
    bFaulted := false
    cFaulted := false
    xFErrored := false
    yFErrored := false
    zFErrored := false
    bFErrored := false
    cFErrored := false
    estop := false
    estopped := false
    spindleErroredWithCode := 0
    spindleModbusNotOk := false
    timeSinceEnable := 6001
    timeSinceEStop := 6001
    timeSinceStartUp := 6001
    timeSinceButtonRelease := 6001
    userRequestedEnable := false
    emcEnable := true
    machineOn := false
    power := true
    xMotorEnable := true
    yMotorEnable := true
    zMotorEnable := true
    bMotorEnable := true
    cMotorEnable := true
    unhome := false }

/-- Input with a non-zero raw spindle error code (7). -/
def c5in : Inputs := { quietIn with spindleErrorCode := 7 }

/-- Input with a raw X-axis following error asserted. -/
def c6in : Inputs := { quietIn with xFError := true }

/-- State for the first half of the claim C7 witness: the button is
latched pushed and not yet released. -/
def c7sA : Data := { c5s with buttonPushed := true, timeSinceButtonRelease := 500 }

/-- State for the second half of the claim C7 witness: the button has
already gone through its one-shot release. -/
def c7sB : Data :=
  { c5s with buttonPushed := true, buttonReleased := true, timeSinceButtonRelease := 42 }

/-- Input with the physical E-Stop button pressed. -/
def c8in : Inputs := { quietIn with button := true }

/-- Input stream with external run permission withheld and everything else
quiet; it drives the machine into the stopped state on tick 0 and keeps it
there (no recovery is ever requested). -/
def wqInp : Nat → Inputs := fun _ => { quietIn with userEnable := false }

/-- In the claim C9 counterexample run the sticky stopped flag holds on
the 101 consecutive states 0..100. -/
def c9_stoppedTicks : Prop :=
  ∀ n, n ≤ 100 → (trace quietInp c9s0 n).estopped = true

/-- In the claim C9 counterexample run the unhome output is never
asserted, on any tick of the infinite run. -/
def c9_noUnhome : Prop := ∀ n, (trace quietInp c9s0 n).unhome = false

theorem update_power (i : Inputs) (s : Data) : (update i s).power = s.power := rfl

theorem update_unhome (i : Inputs) (s : Data) :
    (update i s).unhome = (s.estopped && decide (s.timeSinceEStop > UNHOME_TIME)) := rfl

theorem update_estop (i : Inputs) (s : Data) :
    (update i s).estop =
      !(!fault i && i.userEnable && (!faulted s || (faulted s && resetCompleted i s))) := rfl

theorem update_emcEnable (i : Inputs) (s : Data) :
    (update i s).emcEnable = !(update i s).estop := rfl

theorem update_machineOn (i : Inputs) (s : Data) :
    (update i s).machineOn =
      ((update i s).emcEnable && decide ((update i s).timeSinceEnable > MACHINE_ON_TIME)) := rfl

theorem update_estopped (i : Inputs) (s : Data) :
    (update i s).estopped =
      if (update i s).estop && !(if resetCompleted i s then false else s.estopped) then true
      else (if resetCompleted i s then false else s.estopped) := rfl

theorem update_timeSinceEStop (i : Inputs) (s : Data) :
    (update i s).timeSinceEStop =
      if (update i s).estop && !(if resetCompleted i s then false else s.estopped) then 0
      else (if s.timeSinceEStop ≤ MAX_TIME then s.timeSinceEStop + 1 else s.timeSinceEStop) := rfl

theorem update_timeSinceStartUp (i : Inputs) (s : Data) :
    (update i s).timeSinceStartUp =
      if s.timeSinceStartUp ≤ MAX_TIME then s.timeSinceStartUp + 1 else s.timeSinceStartUp := rfl

theorem update_timeSinceEnable (i : Inputs) (s : Data) :
    (update i s).timeSinceEnable =
      if tseAtCheck i s ≤ MAX_TIME then tseAtCheck i s + 1 else tseAtCheck i s := rfl

theorem update_timeSinceButtonRelease (i : Inputs) (s : Data) :
    (update i s).timeSinceButtonRelease =
      if tsbrAfterRelease i s ≤ MAX_TIME then tsbrAfterRelease i s + 1
      else tsbrAfterRelease i s := rfl

theorem update_userRequestedEnable (i : Inputs) (s : Data) :
    (update i s).userRequestedEnable =
      if resetCompleted i s then false else sequencerActive i s := rfl

theorem update_xFaulted (i : Inputs) (s : Data) :
    (update i s).xFaulted =
      if resetCompleted i s then false
      else if (i.xFault && !i.ignoreComErrors) && preventFaults i s then true
      else s.xFaulted := rfl

theorem update_yFaulted (i : Inputs) (s : Data) :
    (update i s).yFaulted =
      if resetCompleted i s then false
      else if (i.yFault && !i.ignoreComErrors) && preventFaults i s then true
      else s.yFaulted := rfl

theorem update_zFaulted (i : Inputs) (s : Data) :
    (update i s).zFaulted =
      if resetCompleted i s then false
      else if (i.zFault && !i.ignoreComErrors) && preventFaults i s then true
      else s.zFaulted := rfl

theorem update_bFaulted (i : Inputs) (s : Data) :
    (update i s).bFaulted =
      if resetCompleted i s then false
      else if (i.bFault && !i.ignoreComErrors) && preventFaults i s then true
      else s.bFaulted := rfl

theorem update_cFaulted (i : Inputs) (s : Data) :
    (update i s).cFaulted =
      if resetCompleted i s then false
      else if (i.cFault && !i.ignoreComErrors) && preventFaults i s then true
      else s.cFaulted := rfl

theorem update_xFErrored (i : Inputs) (s : Data) :
    (update i s).xFErrored =
      if resetCompleted i s then false
      else if i.xFError then true else s.xFErrored := rfl

theorem update_yFErrored (i : Inputs) (s : Data) :
    (update i s).yFErrored =
      if resetCompleted i s then false
      else if i.yFError then true else s.yFErrored := rfl

theorem update_zFErrored (i : Inputs) (s : Data) :
    (update i s).zFErrored =
      if resetCompleted i s then false
      else if i.zFError then true else s.zFErrored := rfl

theorem update_bFErrored (i : Inputs) (s : Data) :
    (update i s).bFErrored =
      if resetCompleted i s then false
      else if i.bFError then true else s.bFErrored := rfl

theorem update_cFErrored (i : Inputs) (s : Data) :
    (update i s).cFErrored =
      if resetCompleted i s then false
      else if i.cFError then true else s.cFErrored := rfl

theorem update_spindleErroredWithCode (i : Inputs) (s : Data) :
    (update i s).spindleErroredWithCode =
      if resetCompleted i s then 0
      else if (spindleErrorCodeVal i != 0) && preventFaults i s then spindleErrorCodeVal i
      else s.spindleErroredWithCode := rfl

theorem update_spindleModbusNotOk (i : Inputs) (s : Data) :
    (update i s).spindleModbusNotOk =
      if resetCompleted i s then false
      else if !(i.spindleModbusOk || i.ignoreComErrors) && preventFaults i s then true
      else s.spindleModbusNotOk := rfl

theorem update_buttonPushed (i : Inputs) (s : Data) :
    (update i s).buttonPushed =
      if resetCompleted i s then false
      else if i.button then true else s.buttonPushed := rfl

theorem update_buttonReleased (i : Inputs) (s : Data) :
    (update i s).buttonReleased =
      if resetCompleted i s then false
      else if s.buttonPushed && !i.button then true else s.buttonReleased := rfl

theorem update_xMotorEnable (i : Inputs) (s : Data) :
    (update i s).xMotorEnable =
      if sequencerActive i s then decide (tseAtCheck i s ≥ DISABLE_MOTOR_TIME)
      else s.xMotorEnable := rfl

theorem update_yMotorEnable (i : Inputs) (s : Data) :
    (update i s).yMotorEnable =
      if sequencerActive i s then decide (tseAtCheck i s ≥ DISABLE_MOTOR_TIME)
      else s.yMotorEnable := rfl

theorem update_zMotorEnable (i : Inputs) (s : Data) :
    (update i s).zMotorEnable =
      if sequencerActive i s then decide (tseAtCheck i s ≥ DISABLE_MOTOR_TIME)
      else s.zMotorEnable := rfl

theorem update_bMotorEnable (i : Inputs) (s : Data) :
    (update i s).bMotorEnable =
      if sequencerActive i s then decide (tseAtCheck i s ≥ DISABLE_MOTOR_TIME)
      else s.bMotorEnable := rfl

theorem update_cMotorEnable (i : Inputs) (s : Data) :
    (update i s).cMotorEnable =
      if sequencerActive i s then decide (tseAtCheck i s ≥ DISABLE_MOTOR_TIME)
      else s.cMotorEnable := rfl

theorem quiet_step (n : Nat) (hn : 1 ≤ n) :
    update quietIn (quietState n) = quietState (n + 1) := by
  simp [update, quietState, quietIn, tsbrAfterRelease, acceptRequest,
    sequencerActive, tseAtCheck, resetCompleted, spindleErrorCodeVal,
    preventFaults, fault, faulted, MAX_TIME, UNHOME_TIME,
    MACHINE_ON_TIME, STARTUP_TIME, DISABLE_MOTOR_TIME, RESET_TIME]
  first
    | done
    | omega
    | (constructor <;> first
        | omega
        | (split <;> omega)
        | (simp [decide_eq_decide]
           omega))

theorem quiet_trace (n : Nat) :
    trace quietInp initState (n + 1) = quietState (n + 1) := by
  induction n with
  | zero =>
    show update quietIn initState = quietState 1
    decide
  | succ m ih =>
    show update quietIn (trace quietInp initState (m + 1)) = quietState (m + 2)
    rw [ih]
    exact quiet_step (m + 1) (by omega)

theorem rec_step (n : Nat) (hn : 1 ≤ n) :
    update quietIn (recState n) = recState (n + 1) := by
  rcases Nat.lt_or_ge n 1001 with h | h
  · have e1 : min n 6001 = n := by omega
    have e2 : min (n + 1) 6001 = n + 1 := by omega
    simp [update, recState, quietIn, tsbrAfterRelease, acceptRequest,
      sequencerActive, tseAtCheck, resetCompleted, spindleErrorCodeVal,
      preventFaults, fault, faulted, MAX_TIME, UNHOME_TIME,
      MACHINE_ON_TIME, STARTUP_TIME, DISABLE_MOTOR_TIME, RESET_TIME, e1, e2,
      show n ≤ 1001 from by omega, show n ≤ 1000 from by omega,
      show n ≤ 6000 from by omega, show ¬(1000 < n) from by omega,
      show ¬(1100 < n + 1) from by omega, show ¬(1100 ≤ n) from by omega,
      show (100 ≤ n ↔ 100 ≤ n) from Iff.rfl]
    first
      | done
      | omega
      | (simp only [decide_eq_decide]
         omega)
  · rcases Nat.eq_or_lt_of_le h with h' | h'
    · subst h'
      decide
    · rcases Nat.lt_or_ge n 6001 with h6 | h6
      · have e1 : min n 6001 = n := by omega
        have e2 : min (n + 1) 6001 = n + 1 := by omega
        simp [update, recState, quietIn, tsbrAfterRelease, acceptRequest,
          sequencerActive, tseAtCheck, resetCompleted, spindleErrorCodeVal,
          preventFaults, fault, faulted, MAX_TIME, UNHOME_TIME,
          MACHINE_ON_TIME, STARTUP_TIME, DISABLE_MOTOR_TIME, RESET_TIME, e1, e2,
          show ¬(n ≤ 1001) from by omega, show ¬(n ≤ 1000) from by omega,
          show (1000 : Nat) < n from by omega, show (1001 : Nat) ≤ n from by omega,
          show (1001 : Nat) < n from by omega, show n ≤ 6000 from by omega,
          show (101 : Nat) ≤ n from by omega, show (100 : Nat) ≤ n from by omega]
        first
          | done
          | omega
          | (simp only [decide_eq_decide]
             omega)
      · have e1 : min n 6001 = 6001 := by omega
        have e2 : min (n + 1) 6001 = 6001 := by omega
        simp [update, recState, quietIn, tsbrAfterRelease, acceptRequest,
          sequencerActive, tseAtCheck, resetCompleted, spindleErrorCodeVal,
          preventFaults, fault, faulted, MAX_TIME, UNHOME_TIME,
          MACHINE_ON_TIME, STARTUP_TIME, DISABLE_MOTOR_TIME, RESET_TIME, e1, e2,
          show ¬(n ≤ 1001) from by omega, show ¬(n ≤ 1000) from by omega,
          show (1000 : Nat) < n from by omega, show (1001 : Nat) ≤ n from by omega,
          show (1001 : Nat) < n from by omega, show ¬(n ≤ 6000) from by omega,
          show (101 : Nat) ≤ n from by omega, show (100 : Nat) ≤ n from by omega,
          show (1100 : Nat) ≤ n from by omega, show (1100 : Nat) < n + 1 from by omega]
        first
          | done
          | omega
          | (simp only [decide_eq_decide]
             omega)

theorem rec_trace (n : Nat) :
    trace recInp preS (n + 1) = recState (n + 1) := by
  induction n with
  | zero =>
    show update (recInp 0) preS = recState 1
    decide
  | succ m ih =>
    show update (recInp (m + 1)) (trace recInp preS (m + 1)) = recState (m + 2)
    have hq : recInp (m + 1) = quietIn := by simp [recInp]
    rw [hq, ih]
    exact rec_step (m + 1) (by omega)

theorem estopped_back (i : Inputs) (s : Data) (k : Nat) (hk : 1 ≤ k)
    (h1 : (update i s).estopped = true)
    (h2 : k ≤ (update i s).timeSinceEStop) :
    s.estopped = true ∧ k - 1 ≤ s.timeSinceEStop := by
  rw [update_estopped] at h1
  rw [update_timeSinceEStop] at h2
  by_cases he : ((update i s).estop &&
      !(if resetCompleted i s then false else s.estopped)) = true
  · rw [if_pos he] at h2
    omega
  · rw [if_neg he] at h1 h2
    by_cases hr : resetCompleted i s = true
    · rw [if_pos hr] at h1
      exact absurd h1 (by simp)
    · rw [if_neg hr] at h1
      refine ⟨h1, ?_⟩
      split at h2 <;> omega

theorem estopped_fwd (i : Inputs) (s : Data)
    (hs : s.estopped = true) (hr : resetCompleted i s = false)
    (hle : s.timeSinceEStop ≤ MAX_TIME) :
    (update i s).estopped = true ∧
      (update i s).timeSinceEStop = s.timeSinceEStop + 1 := by
  rw [update_estopped, update_timeSinceEStop]
  simp [hr, hs, hle]

theorem estopped_chain (inp : Nat → Inputs) (s0 : Data) :
    ∀ j n, (trace inp s0 n).estopped = true →
      j ≤ (trace inp s0 n).timeSinceEStop →
      (trace inp s0 (n - j)).estopped = true := by
  intro j
  induction j with
  | zero =>
    intro n h _
    simpa using h
  | succ m ih =>
    intro n h hj
    match n with
    | 0 => simpa using h
    | Nat.succ p =>
      have hb := estopped_back (inp p) (trace inp s0 p) (m + 1) (by omega) h hj
      have := ih p hb.1 (by omega)
      simpa [Nat.succ_sub_succ] using this

theorem unhome_requires (inp : Nat → Inputs) (s0 : Data) (n j : Nat)
    (h : (trace inp s0 (n + 1)).unhome = true) (hj : j ≤ 101) :
    (trace inp s0 (n - j)).estopped = true := by
  have hu : (trace inp s0 (n + 1)).unhome =
      ((trace inp s0 n).estopped &&
        decide ((trace inp s0 n).timeSinceEStop > UNHOME_TIME)) :=
    update_unhome (inp n) (trace inp s0 n)
  rw [hu] at h
  simp [UNHOME_TIME] at h
  exact estopped_chain inp s0 j n h.1 (by omega)

theorem stop_duration (inp : Nat → Inputs) (s0 : Data) (t : Nat)
    (h1 : (trace inp s0 (t + 1)).estopped = true)
    (h0 : (trace inp s0 (t + 1)).timeSinceEStop = 0)
    (hnr : ∀ j, j < 101 →
      resetCompleted (inp (t + 1 + j)) (trace inp s0 (t + 1 + j)) = false) :
    (trace inp s0 (t + 103)).unhome = true := by
  have key : ∀ j, j ≤ 101 → (trace inp s0 (t + 1 + j)).estopped = true ∧
      (trace inp s0 (t + 1 + j)).timeSinceEStop = j := by
    intro j
    induction j with
    | zero => intro _; exact ⟨h1, h0⟩
    | succ m ih =>
      intro hm
      have hprev := ih (by omega)
      have hf := estopped_fwd (inp (t + 1 + m)) (trace inp s0 (t + 1 + m))
        hprev.1 (hnr m (by omega)) (by rw [hprev.2]; simp [MAX_TIME]; omega)
      rw [hprev.2] at hf
      exact ⟨hf.1, hf.2⟩
  have h102 := key 101 (by omega)
  have e1 : t + 1 + 101 = t + 102 := by omega
  rw [e1] at h102
  have hu : (trace inp s0 (t + 102 + 1)).unhome =
      ((trace inp s0 (t + 102)).estopped &&
        decide ((trace inp s0 (t + 102)).timeSinceEStop > UNHOME_TIME)) :=
    update_unhome (inp (t + 102)) (trace inp s0 (t + 102))
  have e2 : t + 103 = t + 102 + 1 := by omega
  rw [e2, hu, h102.1, h102.2]
  simp [UNHOME_TIME]

theorem no_request_invariant (inp : Nat → Inputs) (s0 : Data)
    (hcalm : ∀ n, (inp n).button = false ∧ (inp n).userRequestEnable = false)
    (h0 : s0.userRequestedEnable = false ∧ s0.buttonPushed = false ∧
      s0.buttonReleased = false) :
    ∀ n, (trace inp s0 n).userRequestedEnable = false ∧
      (trace inp s0 n).buttonPushed = false ∧
      (trace inp s0 n).buttonReleased = false := by
  intro n
  induction n with
  | zero => exact h0
  | succ m ih =>
    have hseq : sequencerActive (inp m) (trace inp s0 m) = false := by
      simp [sequencerActive, acceptRequest, ih.1, ih.2.2, (hcalm m).2]
    have hres : resetCompleted (inp m) (trace inp s0 m) = false := by
      simp [resetCompleted, hseq]
    refine ⟨?_, ?_, ?_⟩
    · show (update (inp m) (trace inp s0 m)).userRequestedEnable = false
      rw [update_userRequestedEnable, hres]
      simpa using hseq
    · show (update (inp m) (trace inp s0 m)).buttonPushed = false
      rw [update_buttonPushed]
      simp [hres, (hcalm m).1, ih.2.1]
    · show (update (inp m) (trace inp s0 m)).buttonReleased = false
      rw [update_buttonReleased]
      simp [hres, (hcalm m).1, ih.2.1, ih.2.2]

theorem no_request_reset (inp : Nat → Inputs) (s0 : Data)
    (hcalm : ∀ n, (inp n).button = false ∧ (inp n).userRequestEnable = false)
    (h0 : s0.userRequestedEnable = false ∧ s0.buttonPushed = false ∧
      s0.buttonReleased = false) :
    ∀ n, resetCompleted (inp n) (trace inp s0 n) = false := by
  intro n
  have h := no_request_invariant inp s0 hcalm h0 n
  simp [resetCompleted, sequencerActive, acceptRequest, h.1, h.2.2, (hcalm n).2]

theorem c9_step (n : Nat) :
    update quietIn (c9State n) = c9State (n + 1) := by
  rcases Nat.lt_or_ge n 100 with h | h
  · have e1 : min (901 + n) 6001 = 901 + n := by omega
    have e2 : min (901 + (n + 1)) 6001 = 901 + n + 1 := by omega
    have e3 : min n 6001 = n := by omega
    have e4 : min (n + 1) 6001 = n + 1 := by omega
    simp [update, c9State, quietIn, tsbrAfterRelease, acceptRequest,
      sequencerActive, tseAtCheck, resetCompleted, spindleErrorCodeVal,
      preventFaults, fault, faulted, MAX_TIME, UNHOME_TIME,
      MACHINE_ON_TIME, STARTUP_TIME, DISABLE_MOTOR_TIME, RESET_TIME,
      e1, e2, e3, e4,
      show n ≤ 100 from by omega,
      show ¬(1000 < 901 + n) from by omega, show 901 + n ≤ 6000 from by omega,
      show n ≤ 6000 from by omega, show ¬(100 < n) from by omega,
      show ¬(1100 < 901 + n + 1) from by omega,
      show (100 : Nat) ≤ 901 + n from by omega]
    first
      | done
      | omega
      | (simp only [decide_eq_decide]
         omega)
  · rcases Nat.eq_or_lt_of_le h with h' | h'
    · subst h'
      decide
    · rcases Nat.lt_or_ge n 5100 with h5 | h5
      · have e1 : min (901 + n) 6001 = 901 + n := by omega
        have e2 : min (901 + (n + 1)) 6001 = 901 + n + 1 := by omega
        have e3 : min n 6001 = n := by omega
        have e4 : min (n + 1) 6001 = n + 1 := by omega
        simp [update, c9State, quietIn, tsbrAfterRelease, acceptRequest,
          sequencerActive, tseAtCheck, resetCompleted, spindleErrorCodeVal,
          preventFaults, fault, faulted, MAX_TIME, UNHOME_TIME,
          MACHINE_ON_TIME, STARTUP_TIME, DISABLE_MOTOR_TIME, RESET_TIME,
          e1, e2, e3, e4,
          show ¬(n ≤ 100) from by omega, show ¬(n + 1 ≤ 100) from by omega,
          show 901 + n ≤ 6000 from by omega, show n ≤ 6000 from by omega,
          show ¬(n ≤ 99) from by omega]
        first
          | done
          | omega
          | (simp only [decide_eq_decide]
             omega)
      · rcases Nat.lt_or_ge n 6001 with h6 | h6
        · have e1 : min (901 + n) 6001 = 6001 := by omega
          have e2 : min (901 + (n + 1)) 6001 = 6001 := by omega
          have e3 : min n 6001 = n := by omega
          have e4 : min (n + 1) 6001 = n + 1 := by omega
          simp [update, c9State, quietIn, tsbrAfterRelease, acceptRequest,
            sequencerActive, tseAtCheck, resetCompleted, spindleErrorCodeVal,
            preventFaults, fault, faulted, MAX_TIME, UNHOME_TIME,
            MACHINE_ON_TIME, STARTUP_TIME, DISABLE_MOTOR_TIME, RESET_TIME,
            e1, e2, e3, e4,
            show ¬(n ≤ 100) from by omega, show ¬(n + 1 ≤ 100) from by omega,
            show ¬(901 + n ≤ 6000) from by omega, show n ≤ 6000 from by omega,
            show (1100 : Nat) < 6001 from by omega]
          first
            | done
            | omega
            | (simp only [decide_eq_decide]
               omega)
        · have e1 : min (901 + n) 6001 = 6001 := by omega
          have e2 : min (901 + (n + 1)) 6001 = 6001 := by omega
          have e3 : min n 6001 = 6001 := by omega
          have e4 : min (n + 1) 6001 = 6001 := by omega
          simp [update, c9State, quietIn, tsbrAfterRelease, acceptRequest,
            sequencerActive, tseAtCheck, resetCompleted, spindleErrorCodeVal,
            preventFaults, fault, faulted, MAX_TIME, UNHOME_TIME,
            MACHINE_ON_TIME, STARTUP_TIME, DISABLE_MOTOR_TIME, RESET_TIME,
            e1, e2, e3, e4,
            show ¬(n ≤ 100) from by omega, show ¬(n + 1 ≤ 100) from by omega,
            show ¬(901 + n ≤ 6000) from by omega, show ¬(n ≤ 6000) from by omega,
            show (1100 : Nat) < 6001 from by omega]
          first
            | done
            | omega
            | (simp only [decide_eq_decide]
               omega)

theorem c9_trace (n : Nat) : trace quietInp c9s0 n = c9State n := by
  induction n with
  | zero => decide
  | succ m ih =>
    show update quietIn (trace quietInp c9s0 m) = c9State (m + 1)
    rw [ih]
    exact c9_step m

/-- C1 (amended): at every state reachable from initialization, if the
machine-on output is true then the emc-enable output is true, and if the
emc-enable output is true then the estop output is false.  (The original
claim additionally asserted that emc-enable implies the sticky `estopped`
flag is false; that part fails on the code — see the counterexample — so it
is weakened here from `estopped` to the `estop` output.) -/
theorem c1_estop_invariant (inp : Nat → Inputs) (n : Nat) :
    ((trace inp initState n).machineOn = true →
      (trace inp initState n).emcEnable = true) ∧
    ((trace inp initState n).emcEnable = true →
      (trace inp initState n).estop = false) := by
  match n with
  | 0 =>
    refine ⟨fun h => ?_, fun h => ?_⟩ <;> simp [trace, initState] at h
  | Nat.succ m =>
    constructor
    · intro h
      rw [show trace inp initState (m + 1) = update (inp m) (trace inp initState m) from rfl,
        update_machineOn] at h
      rw [show trace inp initState (m + 1) = update (inp m) (trace inp initState m) from rfl]
      simp only [Bool.and_eq_true] at h
      exact h.1
    · intro h
      rw [show trace inp initState (m + 1) = update (inp m) (trace inp initState m) from rfl,
        update_emcEnable] at h
      rw [show trace inp initState (m + 1) = update (inp m) (trace inp initState m) from rfl]
      simpa using h

/-- C1 counterexample: the claim as stated ("emc-enable implies the sticky
stopped flag estopped is false") is violated at a reachable state.  A
one-tick transient X-axis drive fault on tick 5 (inside the startup grace
window, so it is never latched) makes `estop` rise and sets the sticky
`estopped` flag with `timeSinceEStop := 0`; on tick 6 the raw fault is
gone, nothing is latched, so `estop` clears and `emcEnable` returns to
true — but `estopped` stays true because only a completed reset clears it:
after 7 ticks `emcEnable = true` and `estopped = true` hold together. -/
theorem c1_counterexample :
    (trace c1inp initState 7).emcEnable = true ∧
    (trace c1inp initState 7).estopped = true := by decide

theorem c1_witness :
    (trace quietInp initState 1150).emcEnable = true ∧
    (trace quietInp initState 1150).estop = false := by
  have hm : (trace quietInp initState 1150).machineOn = true := by
    rw [show (1150 : Nat) = 1149 + 1 from rfl, quiet_trace]
    decide
  have h := c1_estop_invariant quietInp 1150
  exact ⟨h.1 hm, h.2 (h.1 hm)⟩

/-- C2 (amended): recovery sequence timing.  Starting from a state with a
latched X-axis fault (`preS`), with a recovery request accepted on tick 0
and no new raw fault and run permission granted throughout (`recInp`): all
five per-axis motor-enable outputs are false on every tick in [0,100) and
true on every tick in [100,1000]; on tick 1001 every latch is cleared and
the stop output is false; and machineOn is false on every tick before tick
1100 and first becomes true on tick 1100.  (The original claim said
machineOn becomes true "only after tick 1100"; in fact the machine-on
comparison at source line 461 reads the already incremented timer, so
machineOn is already true on tick 1100 itself — see the counterexample.) -/
theorem c2_recovery_timeline :
    (∀ n, n < 100 → motorsOff (trace recInp preS (n + 1))) ∧
    (∀ n, 100 ≤ n → n ≤ 1000 → motorsOn (trace recInp preS (n + 1))) ∧
    latchesClear (trace recInp preS 1002) ∧
    (trace recInp preS 1002).estop = false ∧
    (∀ n, n < 1100 → (trace recInp preS (n + 1)).machineOn = false) ∧
    (trace recInp preS 1101).machineOn = true := by
  refine ⟨?_, ?_, ?_, ?_, ?_, ?_⟩
  · intro n h
    rw [rec_trace n]
    simp [motorsOff, recState, show ¬(101 ≤ n + 1) from by omega]
  · intro n h1 h2
    rw [rec_trace n]
    simp [motorsOn, recState, show 101 ≤ n + 1 from by omega]
  · rw [show (1002 : Nat) = 1001 + 1 from rfl, rec_trace]
    simp [latchesClear, recState]
  · rw [show (1002 : Nat) = 1001 + 1 from rfl, rec_trace]
    decide
  · intro n h
    rw [rec_trace n]
    simp [recState, show ¬(1101 ≤ n + 1) from by omega]
  · rw [show (1101 : Nat) = 1100 + 1 from rfl, rec_trace]
    decide

/-- C2 counterexample: in the recovery run of the claim, machineOn is
already true on tick 1100 relative to request acceptance (i.e. in the
state written by the 1101st call), contradicting "machineOn first becomes
true only after tick 1100".  The machine-on output at source line 461
compares `timeSinceEnable` after the increment at line 434, so on tick
1100 it sees 1101 > MACHINE_ON_TIME. -/
theorem c2_counterexample : (trace recInp preS 1101).machineOn = true := by
  rw [show (1101 : Nat) = 1100 + 1 from rfl, rec_trace]
  decide

theorem c2_witness :
    motorsOff (trace recInp preS 1) ∧ motorsOn (trace recInp preS 101) ∧
    (trace recInp preS 1100).machineOn = false := by
  refine ⟨c2_recovery_timeline.1 0 (by omega),
    c2_recovery_timeline.2.1 100 (by omega) (by omega), ?_⟩
  have := c2_recovery_timeline.2.2.2.2.1 1099 (by omega)
  simpa using this

/-- C3: latch monotonicity.  On any tick on which the reset sequence does
not complete, every fault-source latch that is set (the five axis fault
latches, the five following-error latches, the latched spindle error code,
the latched modbus failure and the button latch) is still set after the
tick; and on the tick on which the reset sequence completes
(`timeSinceEnable` exceeds RESET_TIME while `userRequestedEnable` holds),
all latches are false simultaneously after the tick. -/
theorem c3_latch_monotonicity (i : Inputs) (s : Data) :
    (resetCompleted i s = false → latchesMono s (update i s)) ∧
    (resetCompleted i s = true → latchesClear (update i s)) := by
  constructor
  · intro h
    refine ⟨?_, ?_, ?_, ?_, ?_, ?_, ?_, ?_, ?_, ?_, ?_, ?_, ?_⟩
    · intro hx; rw [update_xFaulted]; simp [h, hx]
    · intro hx; rw [update_yFaulted]; simp [h, hx]
    · intro hx; rw [update_zFaulted]; simp [h, hx]
    · intro hx; rw [update_bFaulted]; simp [h, hx]
    · intro hx; rw [update_cFaulted]; simp [h, hx]
    · intro hx; rw [update_xFErrored]; simp [h, hx]
    · intro hx; rw [update_yFErrored]; simp [h, hx]
    · intro hx; rw [update_zFErrored]; simp [h, hx]
    · intro hx; rw [update_bFErrored]; simp [h, hx]
    · intro hx; rw [update_cFErrored]; simp [h, hx]
    · intro hsp
      rw [update_spindleErroredWithCode]
      simp only [h, Bool.false_eq_true, if_false]
      split
      next hc =>
        simp only [Bool.and_eq_true] at hc
        simpa using hc.1
      next => exact hsp
    · intro hx; rw [update_spindleModbusNotOk]; simp [h, hx]
    · intro hx; rw [update_buttonPushed]; simp [h, hx]
  · intro h
    refine ⟨?_, ?_, ?_, ?_, ?_, ?_, ?_, ?_, ?_, ?_, ?_, ?_, ?_⟩
    · rw [update_xFaulted]; simp [h]
    · rw [update_yFaulted]; simp [h]
    · rw [update_zFaulted]; simp [h]
    · rw [update_bFaulted]; simp [h]
    · rw [update_cFaulted]; simp [h]
    · rw [update_xFErrored]; simp [h]
    · rw [update_yFErrored]; simp [h]
    · rw [update_zFErrored]; simp [h]
    · rw [update_bFErrored]; simp [h]
    · rw [update_cFErrored]; simp [h]
    · rw [update_spindleErroredWithCode]; simp [h]
    · rw [update_spindleModbusNotOk]; simp [h]
    · rw [update_buttonPushed]; simp [h]

theorem c3_witness :
    latchesMono preS (update quietIn preS) ∧
    latchesClear (update quietIn resetS) :=
  ⟨(c3_latch_monotonicity quietIn preS).1 (by decide),
    (c3_latch_monotonicity quietIn resetS).2 (by decide)⟩

/-- C4 (amended): timer saturation.  `timeSinceStartUp` increments by one
per tick unless its value already exceeds MAX_TIME = 6000 (the C guard is
`<=`, so the resting value is 6001, not 6000); and in the all-quiet run
from initialization (no qualifying reset events) each of the four timers
equals `min n 6001` after `n` ticks — in particular each saturates at 6001
and never wraps to a smaller value. -/
theorem c4_timer_saturation :
    (∀ (i : Inputs) (s : Data),
      (update i s).timeSinceStartUp =
        if s.timeSinceStartUp ≤ MAX_TIME then s.timeSinceStartUp + 1
        else s.timeSinceStartUp) ∧
    (∀ n, (trace quietInp initState n).timeSinceStartUp = min n 6001 ∧
      (trace quietInp initState n).timeSinceEnable = min n 6001 ∧
      (trace quietInp initState n).timeSinceEStop = min n 6001 ∧
      (trace quietInp initState n).timeSinceButtonRelease = min n 6001) := by
  constructor
  · intro i s
    exact update_timeSinceStartUp i s
  · intro n
    match n with
    | 0 => decide
    | Nat.succ m =>
      rw [quiet_trace m]
      exact ⟨rfl, rfl, rfl, rfl⟩

/-- C4 counterexample: the claim as stated says 100,000 quiet ticks leave
each timer "exactly at its ceiling of 6000"; in fact each timer rests at
6001, because the increment guard at source lines 429-445 is
`t <= MAX_TIME`, which still increments a timer whose value is exactly
6000. -/
theorem c4_counterexample :
    (trace quietInp initState 100000).timeSinceStartUp = 6001 ∧
    ¬((trace quietInp initState 100000).timeSinceStartUp = 6000) ∧
    (trace quietInp initState 100000).timeSinceEnable = 6001 ∧
    (trace quietInp initState 100000).timeSinceEStop = 6001 ∧
    (trace quietInp initState 100000).timeSinceButtonRelease = 6001 := by
  rw [show (100000 : Nat) = 99999 + 1 from rfl, quiet_trace 99999]
  refine ⟨by decide, by decide, by decide, by decide, by decide⟩

/-- C5: evaluation at the failing input for the latched-error-code claim.
With the latching guard satisfied and the raw spindle error code 7 (and
ignoreComErrors false), the code stores 1 — not 7 — in
`spindleErroredWithCode`: the C expression at source line 207,
`*(data->spindleErrorCode) && notIgnoreComErrors`, applies the C logical
`&&` to the s32 code, collapsing it to the int 0 or 1, and that collapsed
value is what line 318 latches.  The claim (and the field name, and the
diagnostic that prints "Spindle error: code %d" from the same local) say
the raw non-zero code is captured, so this is a slip in the code. -/
theorem c5_error_code_capture :
    preventFaults c5in c5s = true ∧ c5in.spindleErrorCode = 7 ∧
    c5in.ignoreComErrors = false ∧
    (update c5in c5s).spindleErroredWithCode = 1 ∧
    ¬((update c5in c5s).spindleErroredWithCode = 7) := by decide

/-- C6 (amended): following-error bypass.  On any tick during the startup
grace window (`timeSinceStartUp ≤ STARTUP_TIME`, so the latching guard is
false) on which the reset sequence does not complete: asserting a raw
per-axis following-error input sets its latch on that same tick, whereas
the axis fault latches are left completely unchanged (the raw per-axis
fault inputs are ignored by the latch logic while the guard is false).
(The original claim omitted the reset-completion proviso; on the single
tick on which the reset completes, all latches — including a
following-error latch set on that same tick — end up cleared, see the
counterexample.) -/
theorem c6_following_error_bypass (i : Inputs) (s : Data)
    (hgrace : s.timeSinceStartUp ≤ STARTUP_TIME)
    (hnr : resetCompleted i s = false) :
    ((i.xFError = true → (update i s).xFErrored = true) ∧
      (i.yFError = true → (update i s).yFErrored = true) ∧
      (i.zFError = true → (update i s).zFErrored = true) ∧
      (i.bFError = true → (update i s).bFErrored = true) ∧
      (i.cFError = true → (update i s).cFErrored = true)) ∧
    ((update i s).xFaulted = s.xFaulted ∧
      (update i s).yFaulted = s.yFaulted ∧
      (update i s).zFaulted = s.zFaulted ∧
      (update i s).bFaulted = s.bFaulted ∧
      (update i s).cFaulted = s.cFaulted) := by
  have hguard : preventFaults i s = false := by
    have hh : ¬(STARTUP_TIME < s.timeSinceStartUp) := Nat.not_lt.mpr hgrace
    simp [preventFaults, hh]
  constructor
  · refine ⟨?_, ?_, ?_, ?_, ?_⟩
    · intro hx; rw [update_xFErrored]; simp [hnr, hx]
    · intro hx; rw [update_yFErrored]; simp [hnr, hx]
    · intro hx; rw [update_zFErrored]; simp [hnr, hx]
    · intro hx; rw [update_bFErrored]; simp [hnr, hx]
    · intro hx; rw [update_cFErrored]; simp [hnr, hx]
  · refine ⟨?_, ?_, ?_, ?_, ?_⟩
    · rw [update_xFaulted]; simp [hnr, hguard]
    · rw [update_yFaulted]; simp [hnr, hguard]
    · rw [update_zFaulted]; simp [hnr, hguard]
    · rw [update_bFaulted]; simp [hnr, hguard]
    · rw [update_cFaulted]; simp [hnr, hguard]

/-- C6 counterexample: the claim as stated ("during the startup grace
window, asserting a raw following-error input sets its latch on that same
tick") fails on the tick on which the reset sequence completes inside the
grace window.  In `resetS` (timeSinceStartUp = 1001 ≤ STARTUP_TIME, a
recovery in progress with timeSinceEnable = 1001 > RESET_TIME, as reached
from `initState` by accepting a request on tick 0 and waiting), the X
following-error input is asserted, its latch is set at source line 283,
and then the reset block at line 410 clears it again on the same tick, so
it is false afterwards. -/
theorem c6_counterexample :
    c6in.xFError = true ∧
    resetS.timeSinceStartUp ≤ STARTUP_TIME ∧
    resetCompleted c6in resetS = true ∧
    (update c6in resetS).xFErrored = false := by decide

theorem c6_witness :
    (update c6in initState).xFErrored = true ∧
    (update c6in initState).xFaulted = initState.xFaulted := by
  have h := c6_following_error_bypass c6in initState (by decide) (by decide)
  exact ⟨h.1.1 (by decide), h.2.1⟩

/-- C7: one-shot button-release timer reset.  If the button is latched
pushed, the raw button input is released and the one-shot `buttonReleased`
flag is still clear, the release tick resets `timeSinceButtonRelease` to 0
(the timer then reads 1 after the unconditional end-of-tick increment).
Once `buttonReleased` is set, as long as no reset completes, the timer is
never zeroed again — it just keeps its saturating increment — and
`buttonReleased` stays set, so pressing and releasing the button again
without an intervening completed reset cannot reset the timer a second
time. -/
theorem c7_one_shot_button_release (i : Inputs) (s : Data) :
    (s.buttonPushed = true → i.button = false → s.buttonReleased = false →
      (update i s).timeSinceButtonRelease = 1) ∧
    (s.buttonReleased = true → resetCompleted i s = false →
      (update i s).buttonReleased = true ∧
      (update i s).timeSinceButtonRelease =
        (if s.timeSinceButtonRelease ≤ MAX_TIME then s.timeSinceButtonRelease + 1
         else s.timeSinceButtonRelease)) := by
  constructor
  · intro hp hb hr
    rw [update_timeSinceButtonRelease]
    have h0 : tsbrAfterRelease i s = 0 := by
      simp [tsbrAfterRelease, hp, hb, hr]
    rw [h0]
    simp [MAX_TIME]
  · intro hrel hres
    have h0 : tsbrAfterRelease i s = s.timeSinceButtonRelease := by
      simp [tsbrAfterRelease, hrel]
    constructor
    · rw [update_buttonReleased]
      simp only [hres, Bool.false_eq_true, if_false]
      split
      · rfl
      · exact hrel
    · rw [update_timeSinceButtonRelease, h0]

theorem c7_witness :
    (update quietIn c7sA).timeSinceButtonRelease = 1 ∧
    (update quietIn c7sB).buttonReleased = true ∧
    (update quietIn c7sB).timeSinceButtonRelease = 43 := by
  have hA := (c7_one_shot_button_release quietIn c7sA).1 (by decide) (by decide) (by decide)
  have hB := (c7_one_shot_button_release quietIn c7sB).2 (by decide) (by decide)
  refine ⟨hA, hB.1, ?_⟩
  rw [hB.2]
  decide

/-- C8: the button forces an immediate stop.  From any state with no raw
faults on the inputs, no latched faults, and external run permission
granted, asserting the raw button input makes the `estop` output true on
that same tick, whatever the values of the four timers: the button feeds
the instantaneous `fault` disjunction at source line 357 unguarded. -/
theorem c8_button_forces_stop (i : Inputs) (s : Data)
    (hxf : i.xFault = false) (hyf : i.yFault = false) (hzf : i.zFault = false)
    (hbf : i.bFault = false) (hcf : i.cFault = false)
    (hxe : i.xFError = false) (hye : i.yFError = false) (hze : i.zFError = false)
    (hbe : i.bFError = false) (hce : i.cFError = false)
    (hsp : i.spindleErrorCode = 0) (hmb : i.spindleModbusOk = true)
    (hlat : latchesClear s) (hue : i.userEnable = true)
    (hbtn : i.button = true) :
    (update i s).estop = true := by
  rw [update_estop]
  simp [fault, hbtn]

theorem c8_witness : (update c8in initState).estop = true := by
  refine c8_button_forces_stop c8in initState (by decide) (by decide) (by decide)
    (by decide) (by decide) (by decide) (by decide) (by decide) (by decide)
    (by decide) (by decide) (by decide) ?_ (by decide) (by decide)
  refine ⟨by decide, by decide, by decide, by decide, by decide, by decide,
    by decide, by decide, by decide, by decide, by decide, by decide, by decide⟩

/-- C9 (amended): unhome timing.  First part: if the stopped state is
entered (the sticky `estopped` flag is true with `timeSinceEStop = 0`
after tick `t`) and the reset sequence does not complete during the
following 101 ticks, then `unhome` is asserted on tick `t + 102` — i.e.
the stop must persist for 102 consecutive states, not 101 as the original
claim said, because `unhome` at source line 342 reads `timeSinceEStop`
before the increment of line 443.  Second part: whenever `unhome` is
asserted on some tick `n`, the sticky `estopped` flag was true on all 102
states `n - 101 .. n`; consequently a stop resolved by a completed reset
before 100 ticks of stopped have elapsed never asserts `unhome`. -/
theorem c9_unhome_timing (inp : Nat → Inputs) (s0 : Data) :
    (∀ t, (trace inp s0 (t + 1)).estopped = true →
      (trace inp s0 (t + 1)).timeSinceEStop = 0 →
      (∀ j, j < 101 →
        resetCompleted (inp (t + 1 + j)) (trace inp s0 (t + 1 + j)) = false) →
      (trace inp s0 (t + 103)).unhome = true) ∧
    (∀ n j, (trace inp s0 (n + 1)).unhome = true → j ≤ 101 →
      (trace inp s0 (n - j)).estopped = true) :=
  ⟨fun t h1 h0 hnr => stop_duration inp s0 t h1 h0 hnr,
    fun n j h hj => unhome_requires inp s0 n j h hj⟩

/-- C9 counterexample: the claim as stated ("stopped held continuously for
101 ticks asserts unhome") is false.  In the run `trace quietInp c9s0` the
sticky stopped flag holds on the 101 consecutive states 0..100 (a stop
entered mid-recovery with `timeSinceEnable = 901`, so the reset completes
on tick 100 and clears it), yet the unhome output is never asserted at any
tick of the run: while `estopped` holds, `timeSinceEStop` only reaches 100
at the `unhome` read, never exceeding UNHOME_TIME. -/
theorem c9_counterexample :
    c9_stoppedTicks ∧ (trace quietInp c9s0 101).estopped = false ∧
    c9_noUnhome := by
  refine ⟨?_, ?_, ?_⟩
  · intro n h
    rw [c9_trace]
    simp [c9State, h]
  · rw [c9_trace]
    decide
  · intro n
    rw [c9_trace]
    rfl

theorem c9_witness :
    (trace wqInp initState 1).estopped = true ∧
    (trace wqInp initState 103).unhome = true ∧
    (trace wqInp initState 52).estopped = true := by
  have hcalm : ∀ n, (wqInp n).button = false ∧ (wqInp n).userRequestEnable = false :=
    fun _ => ⟨rfl, rfl⟩
  have hres := no_request_reset wqInp initState hcalm (by decide)
  have h := c9_unhome_timing wqInp initState
  have h1 : (trace wqInp initState 1).estopped = true := by decide
  have h0 : (trace wqInp initState 1).timeSinceEStop = 0 := by decide
  have hu : (trace wqInp initState 103).unhome = true := by
    have := h.1 0 h1 h0 (fun j _ => hres (0 + 1 + j))
    simpa using this
  have he : (trace wqInp initState 52).estopped = true := by
    have := h.2 102 50 (by simpa using hu) (by omega)
    simpa using this
  exact ⟨h1, hu, he⟩

/-- C10: motor-enable frame property.  On any tick on which
`userRequestedEnable` is false at the sequencer check (`sequencerActive`
is false: no recovery was in progress and none was accepted this tick),
`update` leaves all five per-axis motor-enable outputs at their previous
values; and at initialization all five are true.  In particular, entering
the stopped state does not by itself drive the motor-enable outputs
false. -/
theorem c10_motor_enable_frame :
    (∀ (i : Inputs) (s : Data), sequencerActive i s = false →
      (update i s).xMotorEnable = s.xMotorEnable ∧
      (update i s).yMotorEnable = s.yMotorEnable ∧
      (update i s).zMotorEnable = s.zMotorEnable ∧
      (update i s).bMotorEnable = s.bMotorEnable ∧
      (update i s).cMotorEnable = s.cMotorEnable) ∧
    motorsOn initState := by
  constructor
  · intro i s h
    refine ⟨?_, ?_, ?_, ?_, ?_⟩
    · rw [update_xMotorEnable]; simp [h]
    · rw [update_yMotorEnable]; simp [h]
    · rw [update_zMotorEnable]; simp [h]
    · rw [update_bMotorEnable]; simp [h]
    · rw [update_cMotorEnable]; simp [h]
  · exact ⟨rfl, rfl, rfl, rfl, rfl⟩

theorem c10_witness :
    (update quietIn preS).xMotorEnable = preS.xMotorEnable ∧
    (update quietIn preS).yMotorEnable = preS.yMotorEnable ∧
    (update quietIn preS).zMotorEnable = preS.zMotorEnable ∧
    (update quietIn preS).bMotorEnable = preS.bMotorEnable ∧
    (update quietIn preS).cMotorEnable = preS.cMotorEnable :=
  c10_motor_enable_frame.1 quietIn preS (by decide)
